import Mathlib

/-!
A verification development for the UFL expression-graph core: the expression
node model, the index algebra, the differentiation smart constructors
(`SpatialDerivative`, `VariableDerivative`, `Grad`, `Div`, `Curl`, `Rot`),
the terminal-substitution `replace` pass, and the `Argument` /
`TestFunction` / `TrialFunction` construction API.

The embedding is shallow: Python classes become an inductive `Expr` whose
compound constructors carry the fields computed by their `__init__`
(`_free_indices`, `_index_dimensions`, `_shape`, ...), and each smart
constructor (`__new__` + `__init__`) becomes a function returning
`Except String Expr`, where `.error` models a raised `ufl_assert` /
library error and the string is the (paraphrased, apostrophe-free) message.
-/

namespace UFL

/-- A symbolic index token (`Index` in ufl/indexing.py): an opaque name with
a process-wide uniqueness counter; two indices are equal iff their counters
are. -/
structure Index where
  count : Nat
deriving DecidableEq

/-- One entry of a `MultiIndex`: either a symbolic `Index` or a fixed
integer slot (fixed integers are ignored by the index algebra). -/
inductive IndexEntry where
  | idx (i : Index)
  | fixed (n : Nat)
deriving DecidableEq

/-- An opaque geometric domain handle (a cell).  The spatial dimension is
resolved through `domain2dim`. -/
structure Domain where
  dim : Nat
deriving DecidableEq

/-- Modelled from the spec: the domain-to-dimension registry `domain2dim`
(ufl/common.py, not in src): "a lookup from domain handle to a positive
integer spatial dimension; must be total over every domain handle reachable
from constructed expressions".  We model a domain handle as carrying its
dimension, so the registry is the projection. -/
def domain2dim (d : Domain) : Nat := d.dim

/-- The element-metadata collaborator (`FiniteElementBase`): opaque beyond
`value_shape()` and `cell()`. -/
structure FiniteElementBase where
  value_shape : List Nat
  cell : Domain
deriving DecidableEq

/-- The expression node taxonomy.  Terminals: `scalarValue` (ScalarValue),
`zero` (Zero), `identity` (Identity), `constant` / `vectorConstant` /
`tensorConstant` (the Constant family, ufl/coefficient.py), `coefficient`
(Coefficient), `argument` (Argument, ufl/argument.py).  `var` models
`Variable` (ufl/variable.py, not in src: a non-terminal wrapper binding a
sub-expression to a label) and `indexed` models `Indexed` (ufl/indexing.py,
not in src).  The compound differentiation nodes store the fields their
`__init__` computes (free indices, index dimensions, shape, ...). -/
inductive Expr where
  | scalarValue (val : Int)
  | zero (sh : List Nat)
  | identity (dim : Nat)
  | constant (cell : Domain) (count : Int)
  | vectorConstant (cell : Domain) (dim : Nat) (count : Int)
  | tensorConstant (cell : Domain) (sh : List Nat) (count : Int)
  | coefficient (element : FiniteElementBase) (count : Int)
  | argument (element : FiniteElementBase) (count : Int)
  | var (e : Expr) (label : Nat)
  | indexed (e : Expr) (ii : List IndexEntry) (fi : List Index)
      (fid : List (Index × Nat))
  | spatialDerivative (e : Expr) (ii : List IndexEntry) (fi ri : List Index)
      (sh : List Nat) (fid : List (Index × Nat)) (dxfi dxri : List Index)
  | variableDerivative (f v : Expr) (fi : List Index)
      (fid : List (Index × Nat)) (sh : List Nat)
  | grad (f : Expr) (dim : Nat)
  | div (f : Expr)
  | curl (f : Expr) (dim : Nat)
  | rot (f : Expr)
deriving DecidableEq

namespace Expr

/-- `shape()` of each node, per the per-class `shape` methods. -/
def shape : Expr → List Nat
  | scalarValue _ => []
  | zero sh => sh
  | identity d => [d, d]
  | constant _ _ => []
  | vectorConstant _ d _ => [d]
  | tensorConstant _ sh _ => sh
  | coefficient el _ => el.value_shape
  | argument el _ => el.value_shape
  | var e _ => e.shape
  | indexed _ _ _ _ => []
  | spatialDerivative _ _ _ _ sh _ _ _ => sh
  | variableDerivative _ _ _ _ sh => sh
  | grad f d => d :: f.shape
  | div f => f.shape.tail
  | curl _ d => [d]
  | rot _ => []

/-- `rank()` is the length of the shape. -/
def rank (e : Expr) : Nat := e.shape.length

/-- `free_indices()`: terminals have none; compound nodes return the stored
tuple or delegate to an operand exactly as in the source. -/
def free_indices : Expr → List Index
  | scalarValue _ | zero _ | identity _ => []
  | constant _ _ | vectorConstant _ _ _ | tensorConstant _ _ _ => []
  | coefficient _ _ | argument _ _ => []
  | var e _ => e.free_indices
  | indexed _ _ fi _ => fi
  | spatialDerivative _ _ fi _ _ _ _ _ => fi
  | variableDerivative _ _ fi _ _ => fi
  | grad f _ => f.free_indices
  | div f => f.free_indices
  | curl f _ => f.free_indices
  | rot f => f.free_indices

/-- `index_dimensions()`: mapping of each free index to its dimension. -/
def index_dimensions : Expr → List (Index × Nat)
  | scalarValue _ | zero _ | identity _ => []
  | constant _ _ | vectorConstant _ _ _ | tensorConstant _ _ _ => []
  | coefficient _ _ | argument _ _ => []
  | var e _ => e.index_dimensions
  | indexed _ _ _ fid => fid
  | spatialDerivative _ _ _ _ _ fid _ _ => fid
  | variableDerivative _ _ _ fid _ => fid
  | grad f _ => f.index_dimensions
  | div f => f.index_dimensions
  | curl f _ => f.index_dimensions
  | rot f => f.index_dimensions

/-- `domain()`: literals have no domain; the Constant family, coefficients
and arguments resolve it from their cell/element; compounds delegate. -/
def domain : Expr → Option Domain
  | scalarValue _ | zero _ | identity _ => none
  | constant c _ => some c
  | vectorConstant c _ _ => some c
  | tensorConstant c _ _ => some c
  | coefficient el _ => some el.cell
  | argument el _ => some el.cell
  | var e _ => e.domain
  | indexed e _ _ _ => e.domain
  | spatialDerivative e _ _ _ _ _ _ _ => e.domain
  | variableDerivative f _ _ _ _ => f.domain
  | grad f _ => f.domain
  | div f => f.domain
  | curl f _ => f.domain
  | rot f => f.domain

/-- `isinstance(e, Terminal)`: the leaf node classes.  `Variable` and
`Indexed` are not terminals. -/
def isTerminal : Expr → Bool
  | scalarValue _ | zero _ | identity _ => true
  | constant _ _ | vectorConstant _ _ _ | tensorConstant _ _ _ => true
  | coefficient _ _ | argument _ _ => true
  | _ => false

/-- `isinstance(e, spatially_constant_types)` where
`spatially_constant_types = (ScalarValue, Zero, Identity, Constant,
VectorConstant, TensorConstant)` — an ordinary `Coefficient` is NOT
spatially constant. -/
def isSpatiallyConstant : Expr → Bool
  | scalarValue _ | zero _ | identity _ => true
  | constant _ _ | vectorConstant _ _ _ | tensorConstant _ _ _ => true
  | _ => false

/-- `isinstance(e, Variable)`. -/
def isVar : Expr → Bool
  | var _ _ => true
  | _ => false

/-- Whether the node is a literal `Zero`. -/
def isZeroNode : Expr → Bool
  | zero _ => true
  | _ => false

end Expr

/-- The `Index` tokens of a multi-index, fixed integer slots dropped
(`[i for i in indices if isinstance(i, Index)]`). -/
def indexTokens (l : List IndexEntry) : List Index :=
  l.filterMap fun e => match e with | .idx i => some i | .fixed _ => none

/-- Lookup in an association list (a Python dict keyed by `Index`). -/
def lookupDim (m : List (Index × Nat)) (i : Index) : Option Nat :=
  (m.find? fun p => p.1 == i).map (·.2)

/-- `dict(a)` followed by `update(b)`: keys of `a` keep their place with
values overridden by `b`; new keys of `b` are appended. -/
def dictUpdate (a b : List (Index × Nat)) : List (Index × Nat) :=
  (a.map fun p => (p.1, (lookupDim b p.1).getD p.2))
    ++ b.filter fun q => ¬ a.any fun p => p.1 == q.1

/-- Modelled from the spec: `extract_indices` from the index-algebra module
(ufl/indexing.py, not in src).  "Given a flat sequence of index tokens
(fixed integers are ignored) and a parallel sequence of their dimensions,
partition indices into those occurring exactly once (free) and exactly
twice (repeated/summed).  For repeated occurrences, verify the two recorded
dimensions agree; fail with an IndexError-kind condition on mismatch or on
an index occurring more than twice.  `additional_shape` is the ordered
tuple of dimensions of the free indices in first-occurrence order;
`index_dimensions` maps every free (and repeated) index to its dimension."
When called without dimensions (as on the raw dx index list), the
dimension bookkeeping is skipped and only the partition and the
more-than-twice check apply.  Returns
`(free_indices, repeated_indices, additional_shape, index_dimensions)`. -/
def extract_indices (entries : List IndexEntry) (dims : Option (List Nat)) :
    Except String (List Index × List Index × List Nat × List (Index × Nat)) :=
  let toks := indexTokens entries
  let distinct := toks.foldl (fun acc i => if acc.contains i then acc else acc ++ [i]) []
  if distinct.any (fun i => 2 < toks.count i) then
    .error "Index occurs more than twice."
  else
    let free := distinct.filter fun i => toks.count i == 1
    let rep := distinct.filter fun i => toks.count i == 2
    match dims with
    | none => .ok (free, rep, [], [])
    | some ds =>
      let pairs := (entries.zip ds).filterMap fun p =>
        match p.1 with | .idx i => some (i, p.2) | .fixed _ => none
      let dimOf : Index → Nat := fun i => ((pairs.find? fun p => p.1 == i).map (·.2)).getD 0
      if rep.any (fun i => ((pairs.filter fun p => p.1 == i).map (·.2)).any (· != dimOf i)) then
        .error "Index repeated with different dimensions."
      else
        .ok (free, rep, free.map dimOf, (free ++ rep).map fun i => (i, dimOf i))

/-- `SpatialDerivative(expression, indices)` (ufl/differentiation.py).
`__new__`: if the expression is a Terminal, the number of `Index` tokens
equals twice the number of distinct ones, and the expression is spatially
constant, return `Zero(expression.shape())`.  `__init__`: run the index
algebra on the raw dx index list, resolve the spatial dimension from the
domain of the expression, then run the index algebra on the concatenation
of the free indices of the expression with the free dx indices (with their
dimensions) to obtain the stored free/repeated indices, shape and index
dimensions. -/
def SpatialDerivative (expression : Expr) (indices : List IndexEntry) :
    Except String Expr :=
  let ind := indexTokens indices
  if expression.isTerminal && (ind.length == 2 * ind.dedup.length)
      && expression.isSpatiallyConstant then
    .ok (Expr.zero expression.shape)
  else
    match extract_indices indices none with
    | .error msg => .error msg
    | .ok (dxFree, dxRep, _, _) =>
      match expression.domain with
      | none => .error "Need to know the spatial dimension to compute the shape of derivatives."
      | some dom =>
        let dim := domain2dim dom
        let fi := expression.free_indices
        let fid := expression.index_dimensions
        let combined := fi ++ dxFree
        let dimensions := (fi.map fun i => (lookupDim fid i).getD 0)
          ++ List.replicate dxFree.length dim
        match extract_indices (combined.map .idx) (some dimensions) with
        | .error msg => .error msg
        | .ok (free, rep, sh, idims) =>
          .ok (Expr.spatialDerivative expression indices free rep sh idims dxFree dxRep)

/-- `set(a) ^ set(b)` is empty, i.e. the two lists have the same underlying
set of indices. -/
def symmDiffEmpty (a b : List Index) : Bool :=
  (a.all fun i => b.contains i) && (b.all fun i => a.contains i)

/-- `VariableDerivative(f, v)` (ufl/differentiation.py).  `__new__`: if `f`
is a Terminal that is not a Variable and the symmetric difference of the
free-index sets of `f` and `v` is empty, return `Zero(f.shape())` (then
`__init__` is skipped, since the returned `Zero` is not a
`VariableDerivative` instance).  `__init__`: `v` must be a `Variable`, or
an `Indexed` whose wrapped expression is a `Variable` — but that branch
calls `ufl_warning`, a name the module never imports, so it raises a
`NameError` in the host; the symmetric difference of the free-index sets
must again be empty (the assert message speaks of repeated indices); the
stored free indices are the concatenation, the index dimensions the dict
union, and the shape `f.shape() + v.shape()`. -/
def VariableDerivative (f v : Expr) : Except String Expr :=
  if (!f.isVar) && f.isTerminal
      && symmDiffEmpty f.free_indices v.free_indices then
    .ok (Expr.zero f.shape)
  else
    match v with
    | .indexed inner _ _ _ =>
      if inner.isVar then
        .error "NameError: name ufl_warning is not defined"
      else
        .error "Expecting a Variable in VariableDerivative."
    | _ =>
      if !v.isVar then
        .error "Expecting a Variable in VariableDerivative."
      else if !symmDiffEmpty f.free_indices v.free_indices then
        .error "Repeated indices not allowed in VariableDerivative."
      else
        .ok (Expr.variableDerivative f v (f.free_indices ++ v.free_indices)
          (dictUpdate f.index_dimensions v.index_dimensions)
          (f.shape ++ v.shape))

/-- `Grad(f)` (ufl/differentiation.py).  `__new__`: spatially constant `f`
yields `Zero((dim,) + f.shape())`, requiring a resolvable domain.
`__init__`: requires a resolvable domain, then no free indices; the node
has shape `(dim,) + f.shape()`. -/
def Grad (f : Expr) : Except String Expr :=
  if f.isSpatiallyConstant then
    match f.domain with
    | none => .error "Cannot take gradient of expression with undefined domain."
    | some d => .ok (Expr.zero (domain2dim d :: f.shape))
  else
    match f.domain with
    | none => .error "Cannot take gradient of expression with undefined domain."
    | some d =>
      if !f.free_indices.isEmpty then
        .error "Taking gradient of an expression with free indices."
      else
        .ok (Expr.grad f (domain2dim d))

/-- `Div(f)` (ufl/differentiation.py).  `__new__`: spatially constant `f`
yields `Zero(f.shape()[1:])` — the rank check in `__init__` is then never
reached.  `__init__`: requires rank at least 1 and no free indices; shape
drops the leading axis. -/
def Div (f : Expr) : Except String Expr :=
  if f.isSpatiallyConstant then
    .ok (Expr.zero f.shape.tail)
  else if f.rank < 1 then
    .error "Cannot take the divergence of a scalar."
  else if !f.free_indices.isEmpty then
    .error "Taking divergence of an expression with free indices."
  else
    .ok (Expr.div f)

/-- `Curl(f)` (ufl/differentiation.py): no zero short-circuit; requires
rank exactly 1 ("Need a vector."), then no free indices, then a resolvable
domain; shape is `(dim,)`. -/
def Curl (f : Expr) : Except String Expr :=
  if f.rank != 1 then
    .error "Need a vector."
  else if !f.free_indices.isEmpty then
    .error "Taking curl of an expression with free indices."
  else
    match f.domain with
    | none => .error "Cannot take curl of expression with undefined domain."
    | some d => .ok (Expr.curl f (domain2dim d))

/-- `Rot(f)` (ufl/differentiation.py): no zero short-circuit; requires rank
exactly 1 and no free indices; scalar shape. -/
def Rot (f : Expr) : Except String Expr :=
  if f.rank != 1 then
    .error "Need a vector."
  else if !f.free_indices.isEmpty then
    .error "Taking rot of an expression with free indices."
  else
    .ok (Expr.rot f)

/-- Modelled from the spec: `Indexed(expression, indices)` (ufl/indexing.py,
not in src): an indexed access consuming all axes of the expression; the
index algebra is run on the concatenation of the free indices of the
expression with the access indices (dimensions taken from the recorded
free-index dimensions and the shape), yielding the free indices and index
dimensions of the access; the resulting node is scalar. -/
def IndexedC (e : Expr) (ii : List IndexEntry) : Except String Expr :=
  if ii.length != e.rank then
    .error "Indexed: number of indices does not match the rank."
  else
    match extract_indices ((e.free_indices.map .idx) ++ ii)
        (some ((e.free_indices.map fun i => (lookupDim e.index_dimensions i).getD 0)
          ++ e.shape)) with
    | .error msg => .error msg
    | .ok (fi, _, _, fid) => .ok (Expr.indexed e ii fi fid)

/-- Modelled from the spec: the dispatch/traversal engine
(`MultiFunction` with the reuse-if-untouched default plus
`map_integrand_dags`, not in src) specialised to the `Replacer` visitor:
post-order traversal; at a terminal, look the node up in the mapping
(returning the substitute if present, else the terminal unchanged); at a
compound node, transform the expression operands, return the original node
when none changed, and otherwise reconstruct through the smart constructor
so invariants are re-validated.  The per-traversal memoization affects only
cost and sharing, never the computed value, so it is omitted from the
value-level model.  `MultiIndex` operands are non-expression data and are
carried through unchanged. -/
def replaceExpr (m : List (Expr × Expr)) : Expr → Except String Expr
  | .var e l =>
    match replaceExpr m e with
    | .error msg => .error msg
    | .ok e2 => if e2 == e then .ok (.var e l) else .ok (.var e2 l)
  | .indexed e ii fi fid =>
    match replaceExpr m e with
    | .error msg => .error msg
    | .ok e2 => if e2 == e then .ok (.indexed e ii fi fid) else IndexedC e2 ii
  | .spatialDerivative e ii fi ri sh fid dxfi dxri =>
    match replaceExpr m e with
    | .error msg => .error msg
    | .ok e2 =>
      if e2 == e then .ok (.spatialDerivative e ii fi ri sh fid dxfi dxri)
      else SpatialDerivative e2 ii
  | .variableDerivative f v fi fid sh =>
    match replaceExpr m f with
    | .error msg => .error msg
    | .ok f2 =>
      match replaceExpr m v with
      | .error msg => .error msg
      | .ok v2 =>
        if f2 == f && v2 == v then .ok (.variableDerivative f v fi fid sh)
        else VariableDerivative f2 v2
  | .grad f d =>
    match replaceExpr m f with
    | .error msg => .error msg
    | .ok f2 => if f2 == f then .ok (.grad f d) else Grad f2
  | .div f =>
    match replaceExpr m f with
    | .error msg => .error msg
    | .ok f2 => if f2 == f then .ok (.div f) else Div f2
  | .curl f d =>
    match replaceExpr m f with
    | .error msg => .error msg
    | .ok f2 => if f2 == f then .ok (.curl f d) else Curl f2
  | .rot f =>
    match replaceExpr m f with
    | .error msg => .error msg
    | .ok f2 => if f2 == f then .ok (.rot f) else Rot f2
  | t => .ok (((m.find? fun p => p.1 == t).map (·.2)).getD t)

/-- `replace(e, mapping)` (ufl/algorithms/replace.py).  The `Replacer`
constructor validates eagerly, before the traversal is run: every key of
the mapping must be a terminal, and every value must have the shape of its
key; the first failing check raises its error and no node of `e` is
rewritten.  (`as_ufl` is the identity on expressions, and the modelled
grammar has no unexpanded CoefficientDerivative marker, so the
`expand_derivatives` workaround branch never fires.) -/
def replace (e : Expr) (mapping : List (Expr × Expr)) : Except String Expr :=
  if !(mapping.all fun p => p.1.isTerminal) then
    .error "This implementation can only replace Terminal objects."
  else if !(mapping.all fun p => p.1.shape == p.2.shape) then
    .error "Replacement expressions must have the same shape as what they replace."
  else
    replaceExpr mapping e

/-- Modelled from the spec: `Counted.__init__` (ufl/common.py, not in src):
a process-wide monotonic counter per class; an explicit count is stored as
given, while `None` draws the current counter value and increments the
counter.  The counter is threaded explicitly. -/
def countedInit (count : Option Int) (globalcount : Nat) : Int × Nat :=
  match count with
  | some c => (c, globalcount)
  | none => ((globalcount : Int), globalcount + 1)

/-- `Argument(element, count)` (ufl/argument.py): a form argument carrying
its element and the count assigned by `Counted`; returns the node and the
updated process-wide counter. -/
def Argument (element : FiniteElementBase) (count : Option Int) (g : Nat) :
    Expr × Nat :=
  let p := countedInit count g
  (Expr.argument element p.1, p.2)

/-- `Argument.__eq__` (ufl/argument.py line 74): equal iff the other object
is an Argument with equal element and equal count. -/
def argumentEq : Expr → Expr → Bool
  | .argument e1 c1, .argument e2 c2 => e1 == e2 && c1 == c2
  | _, _ => false

/-- `TestFunction(element) = Argument(element, -2)` (ufl/argument.py). -/
def TestFunction (element : FiniteElementBase) (g : Nat) : Expr × Nat :=
  Argument element (some (-2)) g

/-- `TrialFunction(element) = Argument(element, -1)` (ufl/argument.py). -/
def TrialFunction (element : FiniteElementBase) (g : Nat) : Expr × Nat :=
  Argument element (some (-1)) g

/-! Concrete fixtures: a 2-D cell, a scalar and a 2-vector element on it,
index tokens, and the node `SpatialDerivative(Coefficient(elemScalar), (i,))`
produces. -/

def cell2D : Domain := ⟨2⟩

def elemScalar : FiniteElementBase := ⟨[], cell2D⟩

def elemVec2 : FiniteElementBase := ⟨[2], cell2D⟩

def idxI : Index := ⟨0⟩

def idxJ : Index := ⟨1⟩

/-- The node built by `SpatialDerivative(Coefficient(elemScalar, 0), (i,))`:
free indices `(i,)`, the free dx index bound to the spatial dimension 2. -/
def sdNode : Expr :=
  .spatialDerivative (.coefficient elemScalar 0) [.idx idxI]
    [idxI] [] [2] [(idxI, 2)] [idxI] []

/-- A `Variable` with no free indices. -/
def varNoFree : Expr := .var (.coefficient elemScalar 1) 0

/-- A `Variable` whose free-index set is `(i,)` — it binds a
spatial-derivative expression carrying the free index `i`. -/
def varWithI : Expr :=
  .var (.spatialDerivative (.coefficient elemScalar 1) [.idx idxI]
    [idxI] [] [2] [(idxI, 2)] [idxI] []) 1

/-- A `VectorConstant(cell, dim=3)` living on the 2-D cell: shape `(3,)`
differs from `(dim,) = (2,)`. -/
def vc32 : Expr := .vectorConstant cell2D 3 0

/-! Helper lemmas. -/

/-- A spatially constant node is a terminal. -/
lemma isSpatiallyConstant_isTerminal (e : Expr)
    (h : e.isSpatiallyConstant = true) : e.isTerminal = true := by
  cases e <;> simp_all [Expr.isSpatiallyConstant, Expr.isTerminal]

/-- If every element of a list occurs in it exactly twice, the length of
the list is twice the number of distinct elements. -/
lemma length_eq_two_mul_dedup (l : List Index)
    (h : ∀ i ∈ l, l.count i = 2) : l.length = 2 * l.dedup.length := by
  have h1 : ∑ a ∈ l.toFinset, l.count a = l.length := by
    simp
  have h2 : ∑ a ∈ l.toFinset, l.count a = ∑ _a ∈ l.toFinset, 2 :=
    Finset.sum_congr rfl fun a ha => h a (List.mem_toFinset.mp ha)
  rw [h2, Finset.sum_const, smul_eq_mul, List.card_toFinset] at h1
  omega

/-- The traversal with an empty mapping returns every expression
unchanged (no smart constructor is re-run, by reuse-if-untouched). -/
lemma replaceExpr_nil (e : Expr) : replaceExpr [] e = .ok e := by
  induction e with
  | scalarValue v => simp [replaceExpr]
  | zero sh => simp [replaceExpr]
  | identity d => simp [replaceExpr]
  | constant c n => simp [replaceExpr]
  | vectorConstant c d n => simp [replaceExpr]
  | tensorConstant c sh n => simp [replaceExpr]
  | coefficient el n => simp [replaceExpr]
  | argument el n => simp [replaceExpr]
  | var e l ih => simp [replaceExpr, ih]
  | indexed e ii fi fid ih => simp [replaceExpr, ih]
  | spatialDerivative e ii fi ri sh fid dxfi dxri ih => simp [replaceExpr, ih]
  | variableDerivative f v fi fid sh ihf ihv => simp [replaceExpr, ihf, ihv]
  | grad f d ih => simp [replaceExpr, ih]
  | div f ih => simp [replaceExpr, ih]
  | curl f d ih => simp [replaceExpr, ih]
  | rot f ih => simp [replaceExpr, ih]

/-- C1.  Evaluation of `VariableDerivative` at the inputs deciding the
claim: for `f = SpatialDerivative(Coefficient(scalar element), (i,))`
(free-index set `(i,)`) and `v = Variable(Coefficient(...))` (no free
indices) the free-index sets are disjoint, yet construction raises
`Repeated indices not allowed in VariableDerivative` although no index is
repeated across the operands; for `v` a Variable whose free-index set is
also exactly `(i,)` — an index occurring in both operands — construction
succeeds, and even records `i` twice in the free-index tuple of the node.
The `ufl_assert` at differentiation.py line 124 tests the symmetric
difference (`^`) of the two free-index sets where the claim, the assert
message and the line-125 TODO comment all describe an overlap
(intersection) test. -/
theorem vd_symmdiff_code_eval :
    VariableDerivative sdNode varNoFree
      = .error "Repeated indices not allowed in VariableDerivative."
    ∧ VariableDerivative sdNode varWithI
      = .ok (Expr.variableDerivative sdNode varWithI [idxI, idxI]
          [(idxI, 2)] [2, 2])
    ∧ Expr.free_indices sdNode = [idxI]
    ∧ Expr.free_indices varNoFree = []
    ∧ Expr.free_indices varWithI = [idxI] := ⟨rfl, rfl, rfl, rfl, rfl⟩

/-- C2.  Evaluation of `SpatialDerivative` at the inputs deciding the
claim: with the index tuple `(i, i, i, j)` — the index `i` occurring three
times — on the spatially constant terminal `Zero(())`, construction does
NOT fail: the `__new__` shortcut tests only
`len(indices) == 2 * len(set(indices))` (4 = 2·2 here) and returns
`Zero(())`, although its own comment requires "there are no free indices"
and `j` is free.  On a non-constant terminal the same tuple is rejected by
the index algebra, as is `(i, i, i)` on the constant (for which the count
test fails and `__init__` runs). -/
theorem sd_triple_index_code_eval :
    SpatialDerivative (Expr.zero []) [.idx idxI, .idx idxI, .idx idxI, .idx idxJ]
      = .ok (Expr.zero [])
    ∧ SpatialDerivative (Expr.coefficient elemScalar 0)
        [.idx idxI, .idx idxI, .idx idxI, .idx idxJ]
      = .error "Index occurs more than twice."
    ∧ SpatialDerivative (Expr.zero []) [.idx idxI, .idx idxI, .idx idxI]
      = .error "Index occurs more than twice." := ⟨rfl, rfl, rfl⟩

/-- C3 counterexample.  `ScalarValue(1)` has rank 0 and is spatially
constant, and `Div` of it does not raise: the `__new__` zero shortcut runs
before the rank check of `__init__` (which is then skipped entirely), so
the result is `Zero(())`. -/
theorem div_scalar_constant_counterexample :
    Expr.rank (Expr.scalarValue 1) = 0
    ∧ Expr.isSpatiallyConstant (Expr.scalarValue 1) = true
    ∧ Div (Expr.scalarValue 1) = .ok (Expr.zero []) := ⟨rfl, rfl, rfl⟩

/-- C3 as amended.  Spatially constant `f` of any rank (rank 0 included)
yields `Zero(f.shape()[1:])`; for non-constant `f` of rank 0 construction
fails with the rank error; for non-constant `f` of rank at least 1 without
free indices, construction succeeds and the shape drops the leading
axis. -/
theorem div_rank_amended (f : Expr) :
    (f.isSpatiallyConstant = true → Div f = .ok (Expr.zero f.shape.tail))
    ∧ (f.isSpatiallyConstant = false → f.rank = 0 →
        Div f = .error "Cannot take the divergence of a scalar.")
    ∧ (f.isSpatiallyConstant = false → 1 ≤ f.rank → f.free_indices = [] →
        Div f = .ok (Expr.div f) ∧ (Expr.div f).shape = f.shape.tail) := by
  refine ⟨fun hc => ?_, fun hc hr => ?_, fun hc hr hf => ⟨?_, rfl⟩⟩
  · simp_all [Div]
  · simp_all [Div]
  · simp_all [Div]
    omega

/-- C3 witness. -/
theorem div_rank_amended_witness :
    Div vc32 = .ok (Expr.zero [])
    ∧ Div (Expr.coefficient elemScalar 0)
        = .error "Cannot take the divergence of a scalar."
    ∧ Div (Expr.coefficient elemVec2 0) = .ok (Expr.div (Expr.coefficient elemVec2 0)) :=
  ⟨(div_rank_amended vc32).1 rfl,
   (div_rank_amended (Expr.coefficient elemScalar 0)).2.1 rfl rfl,
   ((div_rank_amended (Expr.coefficient elemVec2 0)).2.2 rfl (by decide) rfl).1⟩

/-- C4 counterexample.  `VectorConstant(cell, dim=3)` on the 2-D cell has
shape `(3,)` while the spatial dimension resolved from its domain is 2, so
`f.shape() != (dim,)`; yet both `Curl(f)` and `Rot(f)` succeed — only
`rank == 1` is checked, never that the vector length equals the spatial
dimension — and `Curl(f)` gets shape `(2,)`. -/
theorem curl_rot_dim_counterexample :
    Expr.shape vc32 = [3]
    ∧ Expr.domain vc32 = some cell2D
    ∧ domain2dim cell2D = 2
    ∧ Curl vc32 = .ok (Expr.curl vc32 2)
    ∧ Rot vc32 = .ok (Expr.rot vc32) := ⟨rfl, rfl, rfl, rfl, rfl⟩

/-- C4 as amended.  `Curl(f)` and `Rot(f)` raise the rank error exactly
when `f`'s rank is not 1; the length of the vector axis is never compared
with the spatial dimension.  On success (rank 1, no free indices, and for
`Curl` a resolvable domain) `Curl(f)` has shape `(dim,)` with `dim`
resolved from the domain, `Rot(f)` has empty shape, and no literal-zero
short-circuit applies even to spatially constant operands (the result is a
`Curl` / `Rot` node, never a literal zero). -/
theorem curl_rot_rank_amended (f : Expr) (d : Domain) :
    (f.rank ≠ 1 → Curl f = .error "Need a vector."
        ∧ Rot f = .error "Need a vector.")
    ∧ (f.rank = 1 → f.free_indices = [] → f.domain = some d →
        Curl f = .ok (Expr.curl f (domain2dim d))
        ∧ (Expr.curl f (domain2dim d)).shape = [domain2dim d])
    ∧ (f.rank = 1 → f.free_indices = [] →
        Rot f = .ok (Expr.rot f) ∧ (Expr.rot f).shape = []) := by
  refine ⟨fun hr => ⟨?_, ?_⟩, fun hr hf hd => ⟨?_, rfl⟩, fun hr hf => ⟨?_, rfl⟩⟩ <;>
    simp_all [Curl, Rot]

/-- C4 witness. -/
theorem curl_rot_rank_amended_witness :
    Curl (Expr.scalarValue 1) = .error "Need a vector."
    ∧ Curl (Expr.coefficient elemVec2 0)
        = .ok (Expr.curl (Expr.coefficient elemVec2 0) 2)
    ∧ Rot (Expr.coefficient elemVec2 0) = .ok (Expr.rot (Expr.coefficient elemVec2 0)) :=
  ⟨(curl_rot_rank_amended (Expr.scalarValue 1) cell2D).1 (by decide) |>.1,
   ((curl_rot_rank_amended (Expr.coefficient elemVec2 0) cell2D).2.1 rfl rfl rfl).1,
   ((curl_rot_rank_amended (Expr.coefficient elemVec2 0) cell2D).2.2 rfl rfl).1⟩

/-- C5.  For every spatially constant terminal and every index tuple whose
`Index` entries are entirely self-paired (each occurring index appears
exactly twice; fixed integer slots are ignored), `SpatialDerivative`
returns `Zero` of the expression's shape.  For an ordinary `Coefficient`
(never spatially constant) with the single index `(i,)`, construction
returns a non-zero `SpatialDerivative` node with `i` among its free
indices, bound to the spatial dimension 2 of the cell. -/
theorem sd_constant_selfpaired_zero :
    (∀ (expr : Expr) (indices : List IndexEntry),
      expr.isSpatiallyConstant = true →
      (∀ i ∈ indexTokens indices, (indexTokens indices).count i = 2) →
      SpatialDerivative expr indices = .ok (Expr.zero expr.shape))
    ∧ (SpatialDerivative (Expr.coefficient elemScalar 0) [.idx idxI] = .ok sdNode
      ∧ sdNode.isZeroNode = false
      ∧ idxI ∈ sdNode.free_indices
      ∧ lookupDim sdNode.index_dimensions idxI = some (domain2dim cell2D)) := by
  constructor
  · intro expr indices hconst hpaired
    have hterm := isSpatiallyConstant_isTerminal expr hconst
    have hlen := length_eq_two_mul_dedup _ hpaired
    simp [SpatialDerivative, hterm, hconst, hlen]
  · exact ⟨rfl, rfl, by decide, rfl⟩

/-- C5 witness. -/
theorem sd_constant_selfpaired_zero_witness :
    SpatialDerivative (Expr.zero []) [.idx idxI, .idx idxI] = .ok (Expr.zero []) :=
  sd_constant_selfpaired_zero.1 (Expr.zero []) [.idx idxI, .idx idxI] rfl (by decide)

/-- C6.  For `f` with a resolvable domain of dimension `dim`: spatially
constant `f` gives `Zero((dim,) + f.shape())`; otherwise, with no free
indices, a `Grad` node of shape `(dim,) + f.shape()`; with free indices,
construction fails.  In particular `Grad(Constant(cell))` on the 2-D cell
is `Zero((2,))`, and `Grad(Coefficient(element))` on the same cell has
shape `(2,) + element.value_shape()`. -/
theorem grad_constant_zero_and_shape (f : Expr) (d : Domain)
    (hd : f.domain = some d) :
    (f.isSpatiallyConstant = true →
      Grad f = .ok (Expr.zero (domain2dim d :: f.shape)))
    ∧ (f.isSpatiallyConstant = false → f.free_indices = [] →
        Grad f = .ok (Expr.grad f (domain2dim d))
        ∧ (Expr.grad f (domain2dim d)).shape = domain2dim d :: f.shape)
    ∧ (f.isSpatiallyConstant = false → f.free_indices ≠ [] →
        Grad f = .error "Taking gradient of an expression with free indices.")
    ∧ Grad (Expr.constant cell2D 0) = .ok (Expr.zero [2])
    ∧ Grad (Expr.coefficient elemVec2 0)
        = .ok (Expr.grad (Expr.coefficient elemVec2 0) 2)
    ∧ (Expr.grad (Expr.coefficient elemVec2 0) 2).shape
        = 2 :: elemVec2.value_shape := by
  refine ⟨fun hc => ?_, fun hc hf => ⟨?_, rfl⟩, fun hc hf => ?_, rfl, rfl, rfl⟩ <;>
    simp_all [Grad]

/-- C6 witness. -/
theorem grad_constant_zero_and_shape_witness :
    Grad (Expr.constant cell2D 0) = .ok (Expr.zero [2])
    ∧ Grad (Expr.coefficient elemVec2 0)
        = .ok (Expr.grad (Expr.coefficient elemVec2 0) 2) :=
  ⟨(grad_constant_zero_and_shape (Expr.constant cell2D 0) cell2D rfl).1 rfl,
   ((grad_constant_zero_and_shape (Expr.coefficient elemVec2 0) cell2D rfl).2.1
      rfl rfl).1⟩

/-- C7.  For every terminal `f` that is not a `Variable` and every `v` with
empty symmetric difference of the free-index sets of `f` and `v`,
`VariableDerivative(f, v)` returns `Zero(f.shape())` from `__new__`; the
derivative node is never built. -/
theorem vd_terminal_independent_zero (f v : Expr)
    (hT : f.isTerminal = true) (hV : f.isVar = false)
    (hS : symmDiffEmpty f.free_indices v.free_indices = true) :
    VariableDerivative f v = .ok (Expr.zero f.shape) := by
  simp [VariableDerivative, hT, hV, hS]

/-- C7 witness. -/
theorem vd_terminal_independent_zero_witness :
    VariableDerivative (Expr.constant cell2D 0) varNoFree = .ok (Expr.zero []) :=
  vd_terminal_independent_zero (Expr.constant cell2D 0) varNoFree rfl rfl rfl

/-- C8.  Identity laws of `replace`: substituting a terminal by an
equal-shaped value in the terminal itself yields exactly that value, and
replacing with the empty mapping returns every expression unchanged. -/
theorem replace_identity_laws :
    (∀ t v : Expr, t.isTerminal = true → t.shape = v.shape →
      replace t [(t, v)] = .ok v)
    ∧ (∀ e : Expr, replace e [] = .ok e) := by
  constructor
  · intro t v ht hsh
    have hb : (t.shape == v.shape) = true := beq_iff_eq.mpr hsh
    cases t <;> simp_all [replace, replaceExpr, Expr.isTerminal]
  · intro e
    simp [replace, replaceExpr_nil]

/-- C8 witness. -/
theorem replace_identity_laws_witness :
    replace (Expr.coefficient elemScalar 0)
        [(Expr.coefficient elemScalar 0, Expr.constant cell2D 5)]
      = .ok (Expr.constant cell2D 5)
    ∧ replace sdNode [] = .ok sdNode :=
  ⟨replace_identity_laws.1 (Expr.coefficient elemScalar 0)
      (Expr.constant cell2D 5) rfl rfl,
   replace_identity_laws.2 sdNode⟩

/-- C9.  The preconditions of `replace` are validated before the traversal
runs: a mapping with a non-terminal key makes `replace` return the
key-validation error for every input expression, and a mapping whose keys
are all terminal but where some value's shape differs from its key's makes
it return the shape-validation error for every input expression — no
partial result is ever produced. -/
theorem replace_validation_eager (e : Expr) (mapping : List (Expr × Expr)) :
    ((mapping.all fun p => p.1.isTerminal) = false →
      replace e mapping
        = .error "This implementation can only replace Terminal objects.")
    ∧ ((mapping.all fun p => p.1.isTerminal) = true →
       (mapping.all fun p => p.1.shape == p.2.shape) = false →
      replace e mapping
        = .error "Replacement expressions must have the same shape as what they replace.") := by
  constructor
  · intro h
    simp [replace, h]
  · intro h1 h2
    simp [replace, h1, h2]

/-- C9 witness. -/
theorem replace_validation_eager_witness :
    replace (Expr.coefficient elemScalar 0) [(varNoFree, Expr.constant cell2D 5)]
      = .error "This implementation can only replace Terminal objects."
    ∧ replace (Expr.coefficient elemScalar 0) [(Expr.constant cell2D 0, Expr.zero [3])]
      = .error "Replacement expressions must have the same shape as what they replace." :=
  ⟨(replace_validation_eager (Expr.coefficient elemScalar 0)
      [(varNoFree, Expr.constant cell2D 5)]).1 rfl,
   (replace_validation_eager (Expr.coefficient elemScalar 0)
      [(Expr.constant cell2D 0, Expr.zero [3])]).2 rfl rfl⟩

/-- C10.  `TestFunction` always builds the Argument with count -2 and
`TrialFunction` with count -1, whatever the process-wide counter holds;
Argument equality holds exactly when element and count both agree; hence
two TestFunctions are equal iff their elements are, and a TestFunction
never equals a TrialFunction over the same element. -/
theorem test_trial_function_equality (e1 e2 : FiniteElementBase)
    (c1 c2 : Int) (g1 g2 : Nat) :
    (TestFunction e1 g1).1 = Expr.argument e1 (-2)
    ∧ (TrialFunction e1 g1).1 = Expr.argument e1 (-1)
    ∧ (argumentEq (Expr.argument e1 c1) (Expr.argument e2 c2) = true
        ↔ (e1 = e2 ∧ c1 = c2))
    ∧ (argumentEq (TestFunction e1 g1).1 (TestFunction e2 g2).1 = true ↔ e1 = e2)
    ∧ argumentEq (TestFunction e1 g1).1 (TrialFunction e2 g2).1 = false := by
  refine ⟨rfl, rfl, ?_, ?_, ?_⟩
  · simp [argumentEq]
  · simp [TestFunction, Argument, countedInit, argumentEq]
  · simp [TestFunction, TrialFunction, Argument, countedInit, argumentEq]

/-- C10 witness. -/
theorem test_trial_function_equality_witness :
    argumentEq (TestFunction elemScalar 0).1 (TestFunction elemScalar 7).1 = true
    ∧ argumentEq (TestFunction elemScalar 0).1 (TrialFunction elemScalar 0).1 = false :=
  ⟨(test_trial_function_equality elemScalar elemScalar 0 0 0 7).2.2.2.1.mpr rfl,
   (test_trial_function_equality elemScalar elemScalar 0 0 0 0).2.2.2.2⟩

end UFL
